import Mathlib

/-!
Verification development for the kra-etims-js-sdk request pipeline.

The definitions below are a shallow embedding of the SDK's core:
the environment/url selection (`BaseOClient.baseUrl`, `AuthOClient.fetchToken`),
the token provider (`AuthOClient.getToken` over the `TokenCacheManager` state),
the request pipeline (`BaseOClient.request` / `send` / `unwrap`,
plus the sibling `BaseClient` variants), and the Joi-backed payload validator.
JavaScript strings are Lean `String`s, JS objects that the code inspects are
structures of `Option` fields (`none` = property absent/undefined), thrown
exceptions are `Except` errors, and the HTTP/network layer is passed in as an
explicit outcome value (the SDK only consumes "status + body" from it).
-/

/-- JavaScript string truthiness for optional string properties:
`undefined`, `null` and `''` are falsy. -/
def truthyOpt : Option String → Bool
  | some s => s ≠ ""
  | none => false

/-- JS `a ?? b` for an optional string is `Option.getD`; JS `a || b`
additionally falls through on the empty string. -/
def jsOrStr (o : Option String) (d : String) : String :=
  match o with
  | some s => if s = "" then d else s
  | none => d

/-- JS `a || b` for an optional number (`0` is falsy; HTTP statuses are
never 0 in practice but the source uses `||`). -/
def jsOrNat (o : Option Nat) (d : Nat) : Nat :=
  match o with
  | some n => if n = 0 then d else n
  | none => d

/-- JS whitespace test used by `String.prototype.trim`. -/
def isJsSpace (c : Char) : Bool :=
  c = ' ' ∨ c = '\t' ∨ c = '\n' ∨ c = '\r'

/-- `String.prototype.trim()`: strip whitespace from both ends. -/
def jsTrim (s : String) : String :=
  ⟨((s.data.dropWhile isJsSpace).reverse.dropWhile isJsSpace).reverse⟩

/-- `.replace(/\/+$/, '')`: strip trailing slashes. -/
def stripTrailingSlashes (s : String) : String :=
  ⟨(s.data.reverse.dropWhile (fun c => c = '/')).reverse⟩

/-- Prefix test on character lists (structural, kernel-evaluable). -/
def listStartsWith : List Char → List Char → Bool
  | _, [] => true
  | [], _ :: _ => false
  | a :: as, b :: bs => a = b && listStartsWith as bs

/-- Substring occurrence test on character lists. -/
def listHasSub (pat : List Char) : List Char → Bool
  | [] => pat.isEmpty
  | c :: rest => listStartsWith (c :: rest) pat || listHasSub pat rest

/-- Substring test: true iff `pat` occurs in `s`. -/
def strContains (s pat : String) : Bool :=
  listHasSub pat.data s.data

/-- `String.prototype.startsWith`. -/
def jsStartsWith (s pre : String) : Bool :=
  listStartsWith s.data pre.data

/-- `String.prototype.endsWith`. -/
def jsEndsWith (s suf : String) : Bool :=
  listStartsWith s.data.reverse suf.data.reverse

/-- `String.prototype.toLowerCase` (ASCII, which is all the SDK compares). -/
def jsToLower (s : String) : String :=
  ⟨s.data.map Char.toLower⟩

/-- JS `<` on strings: lexicographic comparison of code units
(structural, so it evaluates in the kernel). -/
def jsStrLtChars : List Char → List Char → Bool
  | [], [] => false
  | [], _ :: _ => true
  | _ :: _, [] => false
  | a :: as, b :: bs =>
    if a < b then true else if b < a then false else jsStrLtChars as bs

/-- JS `a <= b` on strings, i.e. `!(b < a)`. -/
def jsStrLe (a b : String) : Bool :=
  ¬ jsStrLtChars b.data a.data

/-- The environment selector of `OscuConfig.env`: `'sbx' | 'prod'`. -/
inductive Env where
  | sbx
  | prod
deriving DecidableEq, Repr

/-- `BaseOClient.baseUrl()` (src/services/BaseOClient.ts:36-42).
Both branches of the source return the sandbox literal:
the `else` branch repeats `'https://etims-api-sbx.kra.go.ke/etims-api'`. -/
def baseUrlO (env : Env) : String :=
  if env = Env.sbx then
    stripTrailingSlashes (jsTrim "https://etims-api-sbx.kra.go.ke/etims-api")
  else
    stripTrailingSlashes (jsTrim "https://etims-api-sbx.kra.go.ke/etims-api")

/-- The URL `AuthOClient.fetchToken` requests (src/services/BaseOClient.ts:254-262).
`token_url` is always the production literal; the source's
`if (this.config.env == 'sbx') { 'https://sbx.kra.go.ke/v1/token/generate'.trim(); }`
is an expression statement whose value is discarded, so `env` has no effect. -/
def tokenGenerateUrl (env : Env) : String :=
  let token_url := jsTrim "https://api.kra.go.ke/v1/token/generate"
  let _ := env
  stripTrailingSlashes (jsTrim token_url) ++ "?grant_type=client_credentials"

/-- C1: the spec and the README say the environment selector picks the
business base URL and the token URL (production vs sandbox), but the code
sends `env = prod` business requests to the sandbox base URL (both branches
of `baseUrl` return the sandbox literal) and `env = sbx` token fetches to the
production token URL (the sandbox branch is a no-op statement). This theorem
evaluates the code at the failing inputs. -/
theorem c1_env_urls_eval :
    baseUrlO Env.prod = "https://etims-api-sbx.kra.go.ke/etims-api"
    ∧ baseUrlO Env.sbx = baseUrlO Env.prod
    ∧ tokenGenerateUrl Env.sbx
        = "https://api.kra.go.ke/v1/token/generate?grant_type=client_credentials"
    ∧ tokenGenerateUrl Env.prod = tokenGenerateUrl Env.sbx := by
  refine ⟨?_, ?_, ?_, ?_⟩ <;> decide

/-- The fields of a parsed JSON response body that the SDK inspects:
`resultCd`, `resultMsg` and `fault.faultstring` (`none` = absent). -/
structure JsonBody where
  resultCd : Option String := none
  resultMsg : Option String := none
  faultstring : Option String := none
deriving DecidableEq, Repr

/-- The `{}` body used when a response has no data. -/
def emptyJson : JsonBody := {}

/-- The SDK's three exception classes:
`ApiException(message, statusCode, errorCode?, details?)`,
`AuthenticationException(message, statusCode = 401, errorCode?)`,
`ValidationException(message, errors)`. -/
inductive Exc where
  | api (message : String) (statusCode : Nat)
      (errorCode : Option String) (details : Option JsonBody)
  | authn (message : String) (statusCode : Nat) (errorCode : Option String)
  | validation (message : String) (errors : List String)
deriving DecidableEq, Repr

/-- Classifier: is this exception an `ApiException`? -/
def Exc.isApi : Exc → Bool
  | .api _ _ _ _ => true
  | _ => false

/-- Classifier: is this exception an `AuthenticationException`? -/
def Exc.isAuthn : Exc → Bool
  | .authn _ _ _ => true
  | _ => false

/-- Classifier: is this exception a `ValidationException`? -/
def Exc.isValidation : Exc → Bool
  | .validation _ _ => true
  | _ => false

/-- A failed computation whose error is an `ApiException`. -/
def errIsApi {α : Type} : Except Exc α → Bool
  | .error e => e.isApi
  | .ok _ => false

/-- A failed computation whose error is an `AuthenticationException`. -/
def errIsAuthn {α : Type} : Except Exc α → Bool
  | .error e => e.isAuthn
  | .ok _ => false

/-- A failed computation whose error is a `ValidationException`. -/
def errIsValidation {α : Type} : Except Exc α → Bool
  | .error e => e.isValidation
  | .ok _ => false

/-- The response triple `{ status, body, json }` that
`BaseOClient.request` produces and `send`/`unwrap` consume. -/
structure Response where
  status : Nat
  body : String
  json : JsonBody
deriving DecidableEq, Repr

/-- `BaseOClient.isTokenExpired` (and the identical `BaseClient.isTokenExpired`):
status 401, or the body's `fault.faultstring` matching
`/access token expired|invalid token/i`. -/
def isTokenExpiredO (r : Response) : Bool :=
  if r.status = 401 then true
  else
    let fault := (r.json.faultstring).getD ""
    strContains (jsToLower fault) "access token expired"
      ∨ strContains (jsToLower fault) "invalid token"

/-- `BaseOClient.unwrap` (src/services/BaseOClient.ts:149-202):
401 first, then non-2xx, then the business result code with the
`{'000','001'}` success set and lexicographic range classification. -/
def unwrapO (r : Response) : Except Exc JsonBody :=
  let resultMsg := (r.json.resultMsg).getD "Unknown API response"
  if r.status = 401 then
    .error (.authn "Unauthorized: Invalid or expired token" 401 none)
  else if r.status < 200 ∨ 300 ≤ r.status then
    .error (.api ("HTTP Error (" ++ toString r.status ++ "): " ++ resultMsg)
      r.status none none)
  else
    match r.json.resultCd with
    | none => .ok r.json
    | some cd =>
      if cd = "" then .ok r.json
      else if cd = "000" ∨ cd = "001" then .ok r.json
      else if jsStrLe "891" cd && jsStrLe cd "899" then
        .error (.api ("Client Error (" ++ cd ++ "): " ++ resultMsg)
          400 (some cd) (some r.json))
      else if jsStrLe "900" cd then
        .error (.api ("Server Error (" ++ cd ++ "): " ++ resultMsg)
          500 (some cd) (some r.json))
      else
        .error (.api ("Business Error (" ++ cd ++ "): " ++ resultMsg)
          400 (some cd) (some r.json))

/-- `BaseClient.unwrap` of the sibling variant in unnamed part_002
(lines 145-156): the business result code (success set `{'000'}`) is checked
before the HTTP status. -/
def unwrapB2 (r : Response) : Except Exc JsonBody :=
  if truthyOpt r.json.resultCd ∧ r.json.resultCd ≠ some "000" then
    .error (.api ((r.json.resultMsg).getD "KRA business error")
      400 r.json.resultCd (some r.json))
  else if 200 ≤ r.status ∧ r.status < 300 then .ok r.json
  else if r.status = 401 then
    .error (.authn "Unauthorized: Invalid or expired token" 401 none)
  else
    .error (.api ((r.json.faultstring).getD r.body) r.status none none)

/-- `BaseClient.unwrap` of the sibling variant in unnamed part_001
(lines 256-285): success set `{'0000'}`, `||` fallbacks, result code
checked before the HTTP status, final message trimmed. -/
def unwrapB1 (r : Response) : Except Exc JsonBody :=
  if truthyOpt r.json.resultCd ∧ r.json.resultCd ≠ some "0000" then
    .error (.api (jsOrStr r.json.resultMsg "KRA business error")
      400 r.json.resultCd (some r.json))
  else if 200 ≤ r.status ∧ r.status < 300 then .ok r.json
  else if r.status = 401 then
    .error (.authn "Unauthorized: Invalid or expired token" 401 none)
  else
    .error (.api
      (jsTrim (jsOrStr r.json.faultstring
        (jsOrStr (some r.body) ("HTTP " ++ toString r.status ++ " error"))))
      r.status none none)

/-- Helper: `BaseOClient.unwrap` on any 401 response. -/
theorem unwrapO_of_401 (r : Response) (h : r.status = 401) :
    unwrapO r = .error (.authn "Unauthorized: Invalid or expired token" 401 none) := by
  simp [unwrapO, h]

/-- C3 (amended): in `BaseOClient.unwrap` a 401 status always yields the
`AuthenticationException`, whatever the body; in the sibling
`BaseClient.unwrap` (part_002) the business result-code check runs first,
so a 401 whose body carries a truthy non-`'000'` result code yields an
`ApiException` carrying that code instead. -/
theorem c3_unwrap_401 (r : Response) (h : r.status = 401) :
    unwrapO r = .error (.authn "Unauthorized: Invalid or expired token" 401 none)
    ∧ (∀ cd : String, r.json.resultCd = some cd → cd ≠ "" → cd ≠ "000" →
        unwrapB2 r = .error (.api ((r.json.resultMsg).getD "KRA business error")
          400 (some cd) (some r.json))) := by
  constructor
  · exact unwrapO_of_401 r h
  · intro cd hcd hne h0
    simp [unwrapB2, hcd, truthyOpt, hne, h0]

/-- Witness for `c3_unwrap_401` at a concrete 401 response whose body
carries the non-success result code `'999'`. -/
theorem c3_unwrap_401_witness :
    unwrapO ⟨401, "", ⟨some "999", some "boom", none⟩⟩
      = .error (.authn "Unauthorized: Invalid or expired token" 401 none)
    ∧ unwrapB2 ⟨401, "", ⟨some "999", some "boom", none⟩⟩
      = .error (.api "boom" 400 (some "999")
          (some ⟨some "999", some "boom", none⟩)) := by
  have h := c3_unwrap_401 ⟨401, "", ⟨some "999", some "boom", none⟩⟩ rfl
  exact ⟨h.1, h.2 "999" rfl (by decide) (by decide)⟩

/-- Counterexample to C3 as stated: unwrapping the 401 response whose body
carries result code `'999'` through the part_002 `BaseClient.unwrap` raises
an `ApiException`, not an `AuthenticationException`. -/
theorem c3_unwrap_401_cex :
    unwrapB2 ⟨401, "", ⟨some "999", some "boom", none⟩⟩
      = .error (.api "boom" 400 (some "999")
          (some ⟨some "999", some "boom", none⟩))
    ∧ errIsAuthn (unwrapB2 ⟨401, "", ⟨some "999", some "boom", none⟩⟩) = false := by
  refine ⟨?_, ?_⟩ <;> rfl

/-- The HTTP status `BaseOClient.unwrap` attaches to a non-success business
result code: 400 for the lexicographic client range `'891'..'899'`, 500 for
`cd ≥ '900'`, 400 as the fallback. -/
def rangeStatusO (cd : String) : Nat :=
  if jsStrLe "891" cd && jsStrLe cd "899" then 400
  else if jsStrLe "900" cd then 500
  else 400

/-- The message prefix `BaseOClient.unwrap` attaches to a non-success
business result code. -/
def rangeLabelO (cd : String) : String :=
  if jsStrLe "891" cd && jsStrLe cd "899" then "Client Error ("
  else if jsStrLe "900" cd then "Server Error ("
  else "Business Error ("

/-- C5 (amended): for a 2xx response carrying a truthy result code outside
`{'000','001'}`, `BaseOClient.unwrap` raises an `ApiException` that preserves
the code verbatim, is classified by lexicographic code range
(`'891'..'899'` to 400, `≥ '900'` to 500, otherwise 400) and carries the
original code, message and full parsed body; the sibling `BaseClient.unwrap`
(part_002) instead raises a 400 `ApiException` for every non-`'000'` code
(no range classification), still preserving code, message and body. -/
theorem c5_result_code (r : Response) (cd : String)
    (h1 : 200 ≤ r.status) (h2 : r.status < 300)
    (hcd : r.json.resultCd = some cd) (hne : cd ≠ "")
    (h000 : cd ≠ "000") (h001 : cd ≠ "001") :
    unwrapO r = .error (.api
        (rangeLabelO cd ++ cd ++ "): " ++ (r.json.resultMsg).getD "Unknown API response")
        (rangeStatusO cd) (some cd) (some r.json))
    ∧ unwrapB2 r = .error (.api ((r.json.resultMsg).getD "KRA business error")
        400 (some cd) (some r.json)) := by
  have h401 : ¬(r.status = 401) := by omega
  have hrng : ¬(r.status < 200 ∨ 300 ≤ r.status) := by omega
  constructor
  · simp only [unwrapO, hcd]
    rw [if_neg h401, if_neg hrng]
    rw [if_neg hne, if_neg (by simp [h000, h001])]
    unfold rangeStatusO rangeLabelO
    split_ifs <;> rfl
  · simp [unwrapB2, hcd, truthyOpt, hne, h000]

/-- Witness for `c5_result_code` at a 200 response carrying the server-range
code `'910'`. -/
theorem c5_result_code_witness :
    unwrapO ⟨200, "", ⟨some "910", some "srv", none⟩⟩
      = .error (.api (rangeLabelO "910" ++ "910" ++ "): " ++ "srv")
          (rangeStatusO "910") (some "910") (some ⟨some "910", some "srv", none⟩))
    ∧ unwrapB2 ⟨200, "", ⟨some "910", some "srv", none⟩⟩
      = .error (.api "srv" 400 (some "910") (some ⟨some "910", some "srv", none⟩))
    ∧ rangeStatusO "910" = 500 := by
  have h := c5_result_code ⟨200, "", ⟨some "910", some "srv", none⟩⟩ "910"
    (by decide) (by decide) rfl (by decide) (by decide) (by decide)
  exact ⟨h.1, h.2, by decide⟩

/-- Counterexample to C5 as stated: the part_002 `BaseClient.unwrap` gives the
server-range code `'910'` a 400 `ApiException`, not a 500-equivalent one. -/
theorem c5_result_code_cex :
    unwrapB2 ⟨200, "", ⟨some "910", some "srv", none⟩⟩
      = .error (.api "srv" 400 (some "910") (some ⟨some "910", some "srv", none⟩)) := by
  rfl

/-- Case-insensitive key lookup is not used by the SDK; this is plain
first-match lookup in an association list (a JS object literal). -/
def lookupKV {α : Type} (l : List (String × α)) (k : String) : Option α :=
  (l.find? (fun kv => kv.1 == k)).map (·.2)

/-- The static endpoint table of `BaseOClient` (src/services/BaseOClient.ts:8-29). -/
def endpointsO : List (String × String) :=
  [("selectInitOsdcInfo", "/selectInitOsdcInfo"),
   ("selectCodeList", "/selectCodeList"),
   ("selectCustomer", "/selectCustomer"),
   ("selectNoticeList", "/selectNoticeList"),
   ("selectItemClsList", "/selectItemClsList"),
   ("selectItemList", "/selectItemList"),
   ("saveItem", "/saveItem"),
   ("saveItemComposition", "/saveItemComposition"),
   ("selectBhfList", "/selectBhfList"),
   ("saveBhfCustomer", "/saveBhfCustomer"),
   ("saveBhfUser", "/saveBhfUser"),
   ("saveBhfInsurance", "/saveBhfInsurance"),
   ("selectImportItemList", "/selectImportItemList"),
   ("updateImportItem", "/updateImportItem"),
   ("saveTrnsSalesOsdc", "/saveTrnsSalesOsdc"),
   ("selectTrnsPurchaseSalesList", "/selectTrnsPurchaseSalesList"),
   ("insertTrnsPurchase", "/insertTrnsPurchase"),
   ("selectStockMoveList", "/selectStockMoveList"),
   ("insertStockIO", "/insertStockIO"),
   ("saveStockMaster", "/saveStockMaster")]

/-- `BaseOClient.endpoint` (src/services/BaseOClient.ts:48-58): reject
path-like keys, then look the key up in the static table (a missing or
falsy entry is a configuration error). -/
def endpointO (key : String) : Except Exc String :=
  if jsStartsWith key "/" then
    .error (.api ("Endpoint key expected, path given [" ++ key
      ++ "]. Pass endpoint keys only.") 500 none none)
  else
    match lookupKV endpointsO key with
    | some ep =>
      if ep = "" then .error (.api ("Endpoint [" ++ key ++ "] not configured") 500 none none)
      else .ok ep
    | none => .error (.api ("Endpoint [" ++ key ++ "] not configured") 500 none none)

/-- `BaseOClient.send` (src/services/BaseOClient.ts:68-79) with the network
and the token refresh abstracted: `net n` is the response returned by the
`(n+1)`-th `this.request` dispatch, and `refresh` is the outcome of the
`this.auth.getToken(true)` force refresh. Returns the number of dispatches
performed together with the unwrapped outcome. -/
def sendO (key : String) (net : Nat → Response) (refresh : Except Exc String) :
    Nat × Except Exc JsonBody :=
  match endpointO key with
  | .error e => (0, .error e)
  | .ok _ =>
    let r0 := net 0
    if isTokenExpiredO r0 then
      match refresh with
      | .error e => (1, .error e)
      | .ok _ => (2, unwrapO (net 1))
    else (1, unwrapO r0)

/-- The retry loop of the sibling `BaseClient` in unnamed part_001
(`processResponse`, lines 222-247): on every token-expiry signal it clears
the token, force-refreshes, and calls `this.request` again with no retry
counter. `rs` is the script of responses the network returns to successive
dispatches ( `[]` = the next dispatch fails at transport level), `refresh k`
the outcome of the `k`-th force refresh, and `k` the number of dispatches
already performed. -/
def processB1 (refresh : Nat → Except Exc String) :
    List Response → Nat → Nat × Except Exc JsonBody
  | [], k => (k + 1, .error (.api "Request failed: unknown" 500 none none))
  | r :: rest, k =>
    if isTokenExpiredO r then
      match refresh k with
      | .error _ => (k + 1, .error (.authn "Token refresh failed after expiration" 401 none))
      | .ok _ => processB1 refresh rest (k + 1)
    else (k + 1, unwrapB1 r)

/-- `BaseClient.request` of unnamed part_001 (lines 156-220): obtain a token
(failure becomes `AuthenticationException('Failed to obtain access token')`),
then dispatch and process the response, recursing on expiry signals. -/
def requestB1 (tok0 : Except Exc String) (refresh : Nat → Except Exc String)
    (rs : List Response) : Nat × Except Exc JsonBody :=
  match tok0 with
  | .error _ => (0, .error (.authn "Failed to obtain access token" 401 none))
  | .ok _ => processB1 refresh rs 0

/-- C2 (amended): in the `BaseOClient` pipeline at most two dispatches ever
occur; when the first response carries a token-expiry signal and the refresh
succeeds, exactly two dispatches occur, and the outcome is an
`AuthenticationException` whenever the second response has HTTP status 401.
(A second expiry signal carried only as a fault string in a 2xx body is
unwrapped as a success, and the sibling part_001 `BaseClient` re-dispatches
on every expiry signal without a retry cap — see the counterexample.) -/
theorem c2_retry_once (key ep tok : String) (net : Nat → Response)
    (hk : endpointO key = .ok ep) (h0 : isTokenExpiredO (net 0) = true) :
    (sendO key net (.ok tok)).1 = 2
    ∧ (∀ (net2 : Nat → Response) (refresh2 : Except Exc String),
        (sendO key net2 refresh2).1 ≤ 2)
    ∧ ((net 1).status = 401 →
        (sendO key net (.ok tok)).2
          = .error (.authn "Unauthorized: Invalid or expired token" 401 none)) := by
  refine ⟨?_, ?_, ?_⟩
  · simp [sendO, hk, h0]
  · intro net2 refresh2
    unfold sendO
    cases hep : endpointO key with
    | error e => simp
    | ok ep2 =>
      by_cases h : isTokenExpiredO (net2 0) = true
      · simp only [h, if_true]
        cases refresh2 <;> simp
      · simp [h]
  · intro h401
    have hu := unwrapO_of_401 (net 1) h401
    simp [sendO, hk, h0, hu]

/-- Witness for `c2_retry_once`: a concrete `[expiry, expiry-401]` script on
the `saveItem` endpoint performs two dispatches and ends in the
`AuthenticationException`. -/
theorem c2_retry_once_witness :
    (sendO "saveItem"
        (fun _ => ⟨401, "", emptyJson⟩) (.ok "tok")).1 = 2
    ∧ (sendO "saveItem"
        (fun _ => ⟨401, "", emptyJson⟩) (.ok "tok")).2
        = .error (.authn "Unauthorized: Invalid or expired token" 401 none) := by
  have h := c2_retry_once "saveItem" "/saveItem" "tok"
    (fun _ => ⟨401, "", emptyJson⟩) rfl rfl
  exact ⟨h.1, h.2.2 rfl⟩

/-- A 2xx response whose body only carries the expiry fault string. -/
def faultResp : Response :=
  ⟨200, "\x7b\x7d", ⟨none, none, some "Invalid Token"⟩⟩

/-- Counterexample to C2 as stated: (1) under the script
`[expiry, expiry, plain-200]` with every refresh succeeding, the part_001
`BaseClient` pipeline performs three dispatches — the second expiry signal
triggers another refresh-and-dispatch instead of an `AuthenticationException`;
(2) in the `BaseOClient` pipeline a `[expiry, expiry]` pair whose second
signal is only a fault string in a 2xx body ends in an unwrapped success,
not an `AuthenticationException`. -/
theorem c2_retry_once_cex :
    isTokenExpiredO faultResp = true
    ∧ requestB1 (.ok "tok") (fun _ => .ok "tok")
        [faultResp, faultResp, ⟨200, "\x7b\x7d", emptyJson⟩]
        = (3, .ok emptyJson)
    ∧ sendO "saveItem" (fun _ => faultResp) (.ok "tok")
        = (2, .ok ⟨none, none, some "Invalid Token"⟩) := by
  refine ⟨rfl, rfl, rfl⟩

/-- A raw response body together with what `JSON.parse` does to it
(`Except.error m` = `JSON.parse` throws a `SyntaxError` with message `m`;
the parser itself is the host runtime's). -/
structure RawBody where
  raw : String
  parsed : Except String JsonBody
deriving Repr

/-- `response.data ? JSON.parse(response.data) : {}` — an empty body skips
the parser entirely. -/
def parseBody (b : RawBody) : Except String JsonBody :=
  if b.raw = "" then .ok emptyJson else b.parsed

/-- The outcome of one `axios(...)` call as `BaseOClient.request` consumes
it: a resolved (2xx) response, an axios error that carries a response
(non-2xx status), or an axios/other failure without a response. -/
inductive AxiosOutcome where
  | resolved (status : Nat) (body : RawBody)
  | errResponse (status : Nat) (body : RawBody)
  | noResponse (message : String)

/-- What escapes from `BaseOClient.request`: one of the SDK's exception
kinds, or a raw host exception (the `SyntaxError` of a failed
`JSON.parse`) that no handler converts. -/
inductive Thrown where
  | exc (e : Exc)
  | jsError (message : String)
deriving DecidableEq, Repr

/-- `BaseOClient.request` (src/services/BaseOClient.ts:92-117).
On the resolved path the `JSON.parse` sits inside the `try`, so its
`SyntaxError` is caught and wrapped into
`ApiException('Request failed: …', 500)`; on the axios-error path the
`JSON.parse` sits inside the `catch` block, so its `SyntaxError`
propagates raw. -/
def requestO (out : AxiosOutcome) : Except Thrown Response :=
  match out with
  | .resolved st b =>
    match parseBody b with
    | .ok j => .ok ⟨st, b.raw, j⟩
    | .error m => .error (.exc (.api ("Request failed: " ++ m) 500 none none))
  | .errResponse st b =>
    match parseBody b with
    | .ok j => .ok ⟨st, b.raw, j⟩
    | .error m => .error (.jsError m)
  | .noResponse m => .error (.exc (.api ("Request failed: " ++ m) 500 none none))

/-- C8: the claim says the pipeline only ever raises
ValidationError/AuthenticationError/ApiError, even for non-JSON bodies; but
`BaseOClient.request` re-parses a non-2xx error-response body with
`JSON.parse` inside its `catch` block, so the `SyntaxError` escapes raw
(the part_001 sibling catches it, showing the intent). This theorem
evaluates the code at the failing input: a 502 response whose body is an
HTML error page. (The resolved-path conjunct shows the same body on a 2xx
response is wrapped into an `ApiException`, as the claim requires.) -/
theorem c8_raw_error_escapes :
    requestO (.errResponse 502 ⟨"<html>", .error "Unexpected token <"⟩)
      = .error (.jsError "Unexpected token <")
    ∧ requestO (.resolved 200 ⟨"<html>", .error "Unexpected token <"⟩)
      = .error (.exc (.api "Request failed: Unexpected token <" 500 none none)) := by
  refine ⟨rfl, rfl⟩

/-- The JSON body of an authorization-endpoint response as `AuthOClient`
reads it (`none` = property absent). -/
structure TokenData where
  access_token : Option String := none
  expires_in : Option String := none
  errorCode : Option String := none
  errorMessage : Option String := none
deriving DecidableEq, Repr

/-- Per-environment consumer credentials from `config.auth[config.env]`. -/
structure EnvAuth where
  consumer_key : String
  consumer_secret : String
deriving DecidableEq, Repr

/-- The environment name as it appears in error messages. -/
def envName : Env → String
  | .sbx => "sbx"
  | .prod => "prod"

/-- The outcome of the `axios.get` in `AuthOClient.fetchToken`: a resolved
JSON response, an axios error (carrying the optional response status and the
optional `errorMessage` of the response body, plus the error's own
`message`), or a non-axios exception. -/
inductive FetchOutcome where
  | ok (data : TokenData)
  | axiosErr (respStatus : Option Nat) (respErrorMessage : Option String) (message : String)
  | nonAxios
deriving DecidableEq, Repr

/-- `AuthOClient.fetchToken` (src/services/BaseOClient.ts:244-292): missing
environment credentials fail fast; a resolved body carrying a truthy
`errorCode` raises an `ApiException` inside the `try`, which the `catch`
(whose `isAxiosError` test fails for it) replaces with the generic
`ApiException('Unexpected error during token fetch', 500)`; an axios error
is surfaced with the upstream message (`errorMessage || error.message ||
'Token request failed'`) and status (`status || 500`); anything else gets
the generic message. -/
def fetchTokenO (env : Env) (envCfg : Option EnvAuth) (out : FetchOutcome) :
    Except Exc TokenData :=
  if ¬(truthyOpt (envCfg.map (·.consumer_key))
        ∧ truthyOpt (envCfg.map (·.consumer_secret))) then
    .error (.api ("Auth config missing for env [" ++ envName env ++ "]") 500 none none)
  else
    match out with
    | .ok d =>
      if truthyOpt d.errorCode then
        .error (.api "Unexpected error during token fetch" 500 none none)
      else .ok d
    | .axiosErr st rm em =>
      .error (.api (jsOrStr rm (jsOrStr (some em) "Token request failed"))
        (jsOrNat st 500) none none)
    | .nonAxios => .error (.api "Unexpected error during token fetch" 500 none none)

/-- `parseInt(s, 10)`: skip leading whitespace, optional sign, then the
longest digit prefix; `none` models `NaN`. -/
def jsParseInt (s : String) : Option Int :=
  let cs := s.data.dropWhile isJsSpace
  let digitsVal : List Char → Option Nat := fun ds =>
    let pre := ds.takeWhile (·.isDigit)
    if pre.isEmpty then none
    else some (pre.foldl (fun acc c => acc * 10 + (c.toNat - '0'.toNat)) 0)
  match cs with
  | '-' :: rest => (digitsVal rest).map (fun n => -(n : Int))
  | '+' :: rest => (digitsVal rest).map (fun n => (n : Int))
  | _ => (digitsVal cs).map (fun n => (n : Int))

/-- The persisted token-cache file `{ access_token, expires_at }`
(`expires_at` in Unix seconds; `none` models the `null` that
`JSON.stringify` writes when the computed expiry was `NaN`). -/
structure TokenCache where
  access_token : String
  expires_at : Option Int
deriving DecidableEq, Repr

/-- The state `TokenCacheManager` persists: `none` = file absent or
unreadable (its `read` never raises). -/
structure AuthState where
  cache : Option TokenCache
deriving DecidableEq, Repr

/-- The result of one `AuthOClient.getToken` call: the returned token or
the raised exception, the cache state afterwards, and how many
authorization calls (`fetchToken` invocations) were made. -/
structure GetTokenResult where
  result : Except Exc String
  state : AuthState
  fetches : Nat
deriving Repr

/-- The cache-read test of `AuthOClient.getToken`
(`cached && Date.now() < cached.expires_at * 1000`; a `null` expiry
multiplies to 0). `now` is `Date.now()` in milliseconds. -/
def cacheHit (st : AuthState) (now : Nat) : Option String :=
  match st.cache with
  | some c => if (now : Int) < (c.expires_at.getD 0) * 1000 then some c.access_token else none
  | none => none

/-- `AuthOClient.getToken` (src/services/BaseOClient.ts:218-238), with the
network abstracted: `fetchRes` is what `this.fetchToken()` would produce if
called. A fresh token with a falsy `access_token` is rejected; otherwise
`expires_at = Math.floor(now / 1000) + parseInt(expires_in ?? '3600', 10) - 60`
is persisted and the token returned. -/
def getTokenO (st : AuthState) (now : Nat) (forceRefresh : Bool)
    (fetchRes : Except Exc TokenData) : GetTokenResult :=
  match (if forceRefresh then none else cacheHit st now) with
  | some tok => ⟨.ok tok, st, 0⟩
  | none =>
    match fetchRes with
    | .error e => ⟨.error e, st, 1⟩
    | .ok td =>
      if truthyOpt td.access_token then
        let tok := td.access_token.getD ""
        let n := jsParseInt (td.expires_in.getD "3600")
        ⟨.ok tok, ⟨some ⟨tok, n.map (fun k => ((now / 1000 : Nat) : Int) + k - 60)⟩⟩, 1⟩
      else ⟨.error (.api "Invalid token response from KRA" 500 none none), st, 1⟩

/-- `AuthOClient.clearToken`: delegate to the cache manager's `clear`. -/
def clearTokenO (_st : AuthState) : AuthState := ⟨none⟩

/-- A fetch outcome that is a failure: an axios error, a non-axios
exception, or a resolved body carrying a truthy KRA `errorCode`. -/
def fetchFails : FetchOutcome → Bool
  | .ok d => truthyOpt d.errorCode
  | .axiosErr _ _ _ => true
  | .nonAxios => true

/-- C4 (amended): every failing token fetch — network error, non-success
status, error-coded or malformed body — surfaces as an `ApiException`
(the SDK's business/transport error class), never as an
`AuthenticationException` or `ValidationException`; an axios error carries
the upstream message (`errorMessage || error.message || 'Token request
failed'`) and status (`status || 500`), while an error-coded 2xx body is
replaced by the generic `'Unexpected error during token fetch'` / 500;
`getToken` propagates the fetch error unchanged and rejects a body without
an `access_token` with `ApiException('Invalid token response from KRA', 500)`. -/
theorem c4_token_fetch_failure (env : Env) (envCfg : Option EnvAuth)
    (out : FetchOutcome) (hfail : fetchFails out = true) :
    errIsApi (fetchTokenO env envCfg out) = true
    ∧ errIsAuthn (fetchTokenO env envCfg out) = false
    ∧ errIsValidation (fetchTokenO env envCfg out) = false
    ∧ (∀ (s : Nat) (rm : Option String) (em : String),
        truthyOpt (envCfg.map (·.consumer_key)) = true →
        truthyOpt (envCfg.map (·.consumer_secret)) = true →
        fetchTokenO env envCfg (.axiosErr (some s) rm em)
          = .error (.api (jsOrStr rm (jsOrStr (some em) "Token request failed"))
              (jsOrNat (some s) 500) none none))
    ∧ (∀ (st : AuthState) (now : Nat) (e : Exc),
        (getTokenO st now true (.error e)).result = .error e)
    ∧ (∀ (st : AuthState) (now : Nat) (d : TokenData),
        truthyOpt d.access_token = false →
        (getTokenO st now true (.ok d)).result
          = .error (.api "Invalid token response from KRA" 500 none none)) := by
  have base : errIsApi (fetchTokenO env envCfg out) = true := by
    unfold fetchTokenO
    by_cases hc : (truthyOpt (envCfg.map (·.consumer_key))
        ∧ truthyOpt (envCfg.map (·.consumer_secret)))
    · rw [if_neg (by simpa using hc)]
      cases out with
      | ok d =>
        have hd : truthyOpt d.errorCode = true := hfail
        simp [hd, errIsApi, Exc.isApi]
      | axiosErr st rm em => rfl
      | nonAxios => rfl
    · rw [if_pos (by simpa using hc)]
      rfl
  have side : errIsAuthn (fetchTokenO env envCfg out) = false
      ∧ errIsValidation (fetchTokenO env envCfg out) = false := by
    cases h : fetchTokenO env envCfg out with
    | ok d => exact ⟨rfl, rfl⟩
    | error e =>
      rw [h] at base
      cases e with
      | api m sc ec dt => exact ⟨rfl, rfl⟩
      | authn m sc ec => exact absurd base (by simp [errIsApi, Exc.isApi])
      | validation m errs => exact absurd base (by simp [errIsApi, Exc.isApi])
  refine ⟨base, side.1, side.2, ?_, ?_, ?_⟩
  · intro s rm em hk hsec
    simp [fetchTokenO, hk, hsec]
  · intro st now e
    rfl
  · intro st now d hd
    simp [getTokenO, hd]

/-- Witness for `c4_token_fetch_failure` at a concrete axios timeout error
with status 503. -/
theorem c4_token_fetch_failure_witness :
    fetchTokenO Env.prod (some ⟨"ck", "cs"⟩) (.axiosErr (some 503) none "timeout")
      = .error (.api (jsOrStr none (jsOrStr (some "timeout") "Token request failed"))
          (jsOrNat (some 503) 500) none none)
    ∧ jsOrStr none (jsOrStr (some "timeout") "Token request failed") = "timeout"
    ∧ jsOrNat (some 503) 500 = 503
    ∧ errIsApi (fetchTokenO Env.prod (some ⟨"ck", "cs"⟩)
        (.axiosErr (some 503) none "timeout")) = true := by
  have h := c4_token_fetch_failure Env.prod (some ⟨"ck", "cs"⟩)
    (.axiosErr (some 503) none "timeout") rfl
  exact ⟨h.2.2.2.1 503 none "timeout" rfl rfl, rfl, rfl, h.1⟩

/-- Counterexample to C4 as stated: a failed token fetch (HTTP 401 from the
authorization endpoint) raises the `ApiException` class, not an
`AuthenticationException`. -/
theorem c4_token_fetch_failure_cex :
    fetchTokenO Env.prod (some ⟨"ck", "cs"⟩)
        (.axiosErr (some 401) (some "Invalid Credentials")
          "Request failed with status code 401")
      = .error (.api "Invalid Credentials" 401 none none)
    ∧ errIsAuthn (fetchTokenO Env.prod (some ⟨"ck", "cs"⟩)
        (.axiosErr (some 401) (some "Invalid Credentials")
          "Request failed with status code 401")) = false := by
  exact ⟨rfl, rfl⟩

/-- C6: from an empty cache, a successful `getToken` performs exactly one
authorization call and persists `expires_at = floor(now/1000) + expires_in
- 60` (seconds); any later call before that expiry (milliseconds compared
against `expires_at * 1000`) returns the same token with no fetch and
leaves the state unchanged; any call at or after it performs exactly one
fetch. -/
theorem c6_token_freshness (now : Nat) (tok s : String) (n : Int)
    (htok : tok ≠ "") (hs : jsParseInt s = some n) :
    getTokenO ⟨none⟩ now false (.ok ⟨some tok, some s, none, none⟩)
      = ⟨.ok tok, ⟨some ⟨tok, some (((now / 1000 : Nat) : Int) + n - 60)⟩⟩, 1⟩
    ∧ (∀ (now2 : Nat) (fr2 : Except Exc TokenData),
        (now2 : Int) < (((now / 1000 : Nat) : Int) + n - 60) * 1000 →
        getTokenO ⟨some ⟨tok, some (((now / 1000 : Nat) : Int) + n - 60)⟩⟩ now2 false fr2
          = ⟨.ok tok, ⟨some ⟨tok, some (((now / 1000 : Nat) : Int) + n - 60)⟩⟩, 0⟩)
    ∧ (∀ (now2 : Nat) (fr2 : Except Exc TokenData),
        ¬((now2 : Int) < (((now / 1000 : Nat) : Int) + n - 60) * 1000) →
        (getTokenO ⟨some ⟨tok, some (((now / 1000 : Nat) : Int) + n - 60)⟩⟩
            now2 false fr2).fetches = 1) := by
  refine ⟨?_, ?_, ?_⟩
  · simp [getTokenO, cacheHit, truthyOpt, htok, hs]
  · intro now2 fr2 hlt
    unfold getTokenO cacheHit
    simp only [Option.getD_some]
    rw [if_pos hlt]
    rfl
  · intro now2 fr2 hge
    unfold getTokenO cacheHit
    simp only [Option.getD_some]
    rw [if_neg hge]
    cases fr2 with
    | error e => rfl
    | ok td =>
      by_cases ht : truthyOpt td.access_token = true
      · simp [ht]
      · simp [ht]

/-- Witness for `c6_token_freshness` with a fetch at `now = 5000000` ms and
`expires_in = '3600'`: the persisted expiry is `5000 + 3600 - 60 = 8540`;
a call at `8539999` ms hits the cache, a call at `8540000` ms fetches. -/
theorem c6_token_freshness_witness :
    getTokenO ⟨none⟩ 5000000 false (.ok ⟨some "T", some "3600", none, none⟩)
      = ⟨.ok "T", ⟨some ⟨"T", some 8540⟩⟩, 1⟩
    ∧ getTokenO ⟨some ⟨"T", some 8540⟩⟩ 8539999 false
        (.error (.api "down" 500 none none))
      = ⟨.ok "T", ⟨some ⟨"T", some 8540⟩⟩, 0⟩
    ∧ (getTokenO ⟨some ⟨"T", some 8540⟩⟩ 8540000 false
        (.error (.api "down" 500 none none))).fetches = 1 := by
  have h := c6_token_freshness 5000000 "T" "3600" 3600 (by decide) rfl
  exact ⟨h.1, h.2.1 8539999 _ (by decide), h.2.2 8540000 _ (by decide)⟩

/-- C10: an authorization response with an `access_token` but no
`expires_in` is accepted: the lifetime defaults to `'3600'`, the persisted
expiry is `floor(now/1000) + 3600 - 60`, and the token is returned. -/
theorem c10_default_expiry (st : AuthState) (now : Nat) (tok : String)
    (htok : tok ≠ "") :
    getTokenO st now true (.ok ⟨some tok, none, none, none⟩)
      = ⟨.ok tok, ⟨some ⟨tok, some (((now / 1000 : Nat) : Int) + 3600 - 60)⟩⟩, 1⟩ := by
  have h36 : jsParseInt "3600" = some 3600 := rfl
  simp [getTokenO, truthyOpt, htok, h36]

/-- Witness for `c10_default_expiry` at `now = 1000000` ms: the expiry is
`1000 + 3600 - 60 = 4540` and the token is returned, not an error. -/
theorem c10_default_expiry_witness :
    getTokenO ⟨none⟩ 1000000 true (.ok ⟨some "T", none, none, none⟩)
      = ⟨.ok "T", ⟨some ⟨"T", some 4540⟩⟩, 1⟩ := by
  exact c10_default_expiry ⟨none⟩ 1000000 "T" (by decide)

/-- The `config.oscu` block as `buildHeaders` reads it (`none` = property
absent; the source guards the whole block with `this.config.oscu || {}`). -/
structure OscuIds where
  tin : Option String := none
  bhf_id : Option String := none
  cmc_key : Option String := none
deriving DecidableEq, Repr

/-- `BaseOClient.buildHeaders` (src/services/BaseOClient.ts:120-141) with
the already-obtained bearer token as input: the initialization endpoint gets
only the three base headers; every other endpoint additionally gets `tin`,
`bhfId` and `cmcKey`, each defaulted to `''` by `?? ''` when the
configuration value is absent. -/
def buildHeadersO (token : String) (oscu : Option OscuIds) (endpoint : String) :
    List (String × String) :=
  if jsEndsWith endpoint "/selectInitOsdcInfo" then
    [("Authorization", "Bearer " ++ token),
     ("Content-Type", "application/json"),
     ("Accept", "application/json")]
  else
    [("Authorization", "Bearer " ++ token),
     ("Content-Type", "application/json"),
     ("Accept", "application/json"),
     ("tin", (oscu.bind OscuIds.tin).getD ""),
     ("bhfId", (oscu.bind OscuIds.bhf_id).getD ""),
     ("cmcKey", (oscu.bind OscuIds.cmc_key).getD "")]

/-- First-match header lookup. -/
def getHeader (hs : List (String × String)) (k : String) : Option String :=
  (hs.find? (fun kv => kv.1 == k)).map (·.2)

/-- C9: for every non-initialization endpoint, `buildHeaders` (a total
function of the token and configuration) sends the three business-identity
headers; an absent configuration value yields the header with the empty
string, never an omitted header or a failure. -/
theorem c9_business_headers (token endpoint : String) (oscu : Option OscuIds)
    (h : jsEndsWith endpoint "/selectInitOsdcInfo" = false) :
    getHeader (buildHeadersO token oscu endpoint) "tin"
      = some ((oscu.bind OscuIds.tin).getD "")
    ∧ getHeader (buildHeadersO token oscu endpoint) "bhfId"
      = some ((oscu.bind OscuIds.bhf_id).getD "")
    ∧ getHeader (buildHeadersO token oscu endpoint) "cmcKey"
      = some ((oscu.bind OscuIds.cmc_key).getD "")
    ∧ (buildHeadersO token oscu endpoint).length = 6 := by
  unfold buildHeadersO
  rw [h]
  exact ⟨rfl, rfl, rfl, rfl⟩

/-- Witness for `c9_business_headers`: with the whole `oscu` block absent,
the `saveItem` endpoint still gets all three headers, each with `''`. -/
theorem c9_business_headers_witness :
    getHeader (buildHeadersO "tok" none "/saveItem") "tin" = some ""
    ∧ getHeader (buildHeadersO "tok" none "/saveItem") "bhfId" = some ""
    ∧ getHeader (buildHeadersO "tok" none "/saveItem") "cmcKey" = some ""
    ∧ (buildHeadersO "tok" none "/saveItem").length = 6 := by
  exact c9_business_headers "tok" "/saveItem" none rfl

/-- A JSON payload value as the modelled validator inspects it (the modelled
schemas constrain only scalar fields). -/
inductive JValue where
  | str (s : String)
  | num (n : Int)
  | bool (b : Bool)
  | nul
deriving DecidableEq, Repr

/-- One declared schema field: its name, whether it is `required()`, and its
constraint list — one `(message, predicate)` pair per Joi rule, each failing
pair contributing one error detail. -/
structure FieldRule where
  name : String
  required : Bool
  checks : List (String × (JValue → Bool))

/-- Joi `string()` type rule. -/
def isStr : JValue → Bool
  | .str _ => true
  | _ => false

/-- Joi `min(k)` on strings (vacuous on non-strings, whose type rule already
failed). -/
def strMinLen (k : Nat) : JValue → Bool
  | .str s => k ≤ s.length
  | _ => true

/-- Joi `max(k)` on strings. -/
def strMaxLen (k : Nat) : JValue → Bool
  | .str s => s.length ≤ k
  | _ => true

/-- Joi `pattern(/^\d{14}$/)`. -/
def strDigits14 : JValue → Bool
  | .str s => s.length = 14 && s.data.all (·.isDigit)
  | _ => true

/-- Modelled from the spec: the Joi object-validation engine the
`Validator.validate` wrapper (unnamed part_003) calls with
`abortEarly: false, allowUnknown: false` is a vendored dependency whose code
is not part of the repository; per the spec it "always runs to completion
and aggregates every failing field/constraint into one ordered list" and
rejects undeclared fields. `fieldErrors` collects the details of one
declared field: a missing required field gives one message, a present field
one message per failing constraint. -/
def fieldErrors (p : List (String × JValue)) (r : FieldRule) : List String :=
  match lookupKV p r.name with
  | none => if r.required then [r.name ++ ": is required"] else []
  | some v =>
    (r.checks.filter (fun c => c.2 v = false)).map (fun c => r.name ++ ": " ++ c.1)

/-- The payload entries not declared by any schema field
(`allowUnknown: false` rejects each of them). -/
def unknownFields (sch : List FieldRule) (p : List (String × JValue)) :
    List (String × JValue) :=
  p.filter (fun kv => !(sch.any (fun r => r.name == kv.1)))

/-- Modelled from the spec: the full aggregated error-detail list of one
validation run — every declared field's violations followed by one message
per unknown field, never aborting early. -/
def joiErrors (sch : List FieldRule) (p : List (String × JValue)) : List String :=
  (sch.map (fieldErrors p)).flatten
    ++ (unknownFields sch p).map (fun kv => kv.1 ++ ": is not allowed")

/-- The number of violated independent constraints of a payload against a
schema: one per missing required field, one per failing constraint of a
present field, one per unknown field. -/
def fieldViolations (p : List (String × JValue)) (r : FieldRule) : Nat :=
  match lookupKV p r.name with
  | none => if r.required then 1 else 0
  | some v => (r.checks.filter (fun c => c.2 v = false)).length

/-- Total violation count of a payload against a schema. -/
def violationCount (sch : List FieldRule) (p : List (String × JValue)) : Nat :=
  (sch.map (fieldViolations p)).sum + (unknownFields sch p).length

/-- The two failure modes of `Validator.validate`: the
`ValidationException('Validation failed', messages)` and the plain
`Error` thrown for an unknown schema name. -/
inductive ValidateErr where
  | vfail (message : String) (errors : List String)
  | schemaMissing (message : String)
deriving DecidableEq, Repr

/-- `Validator.validate` (unnamed part_003, lines 421-445), over the schema
table held by the constructor: unknown schema names are a programmer error;
otherwise run the engine and either return the value or throw the
`ValidationException` carrying every message. -/
def validateV (schemas : List (String × List FieldRule))
    (data : List (String × JValue)) (schemaName : String) :
    Except ValidateErr (List (String × JValue)) :=
  match lookupKV schemas schemaName with
  | none => .error (.schemaMissing
      ("Validation schema \x27" ++ schemaName ++ "\x27 not defined"))
  | some sch =>
    let msgs := joiErrors sch data
    if msgs.isEmpty then .ok data
    else .error (.vfail "Validation failed" msgs)

/-- The `initialization` schema of unnamed part_003 (lines 24-28):
`tin` string min 1 max 20 required, `bhfId` string min 1 max 10 required,
`dvcSrlNo` string min 1 max 50 required. -/
def initializationSchema : List FieldRule :=
  [⟨"tin", true,
    [("must be a string", isStr),
     ("length must be at least 1", strMinLen 1),
     ("length must be at most 20", strMaxLen 20)]⟩,
   ⟨"bhfId", true,
    [("must be a string", isStr),
     ("length must be at least 1", strMinLen 1),
     ("length must be at most 10", strMaxLen 10)]⟩,
   ⟨"dvcSrlNo", true,
    [("must be a string", isStr),
     ("length must be at least 1", strMinLen 1),
     ("length must be at most 50", strMaxLen 50)]⟩]

/-- The `lastReqOnly` schema of unnamed part_003 (lines 33-35). -/
def lastReqOnlySchema : List FieldRule :=
  [⟨"lastReqDt", true,
    [("must be a string", isStr),
     ("has invalid format", strDigits14)]⟩]

/-- One field contributes exactly as many messages as violations. -/
theorem fieldErrors_length (p : List (String × JValue)) (r : FieldRule) :
    (fieldErrors p r).length = fieldViolations p r := by
  unfold fieldErrors fieldViolations
  cases lookupKV p r.name with
  | none => cases r.required <;> rfl
  | some v => simp [List.length_map]

/-- The aggregated message list has exactly one entry per violation. -/
theorem joiErrors_length (sch : List FieldRule) (p : List (String × JValue)) :
    (joiErrors sch p).length = violationCount sch p := by
  unfold joiErrors violationCount
  rw [List.length_append, List.length_flatten, List.map_map, List.length_map]
  congr 1
  congr 1
  exact List.map_congr_left (fun r _ => fieldErrors_length p r)

/-- C7: for a payload violating `k` (nonzero) independent constraints of an
existing schema, `validate` raises the `ValidationException` carrying
exactly `k` field-level messages — one per missing required field, failing
constraint, or unknown field — never aborting at the first violation. -/
theorem c7_validation_aggregation (schemas : List (String × List FieldRule))
    (sn : String) (sch : List FieldRule) (p : List (String × JValue))
    (h : lookupKV schemas sn = some sch) (hv : violationCount sch p ≠ 0) :
    validateV schemas p sn = .error (.vfail "Validation failed" (joiErrors sch p))
    ∧ (joiErrors sch p).length = violationCount sch p := by
  have hlen := joiErrors_length sch p
  have hne : (joiErrors sch p).isEmpty = false := by
    rcases he : joiErrors sch p with _ | ⟨m, ms⟩
    · rw [he] at hlen
      exact absurd hlen.symm hv
    · rfl
  refine ⟨?_, hlen⟩
  unfold validateV
  rw [h]
  simp only [hne]
  rfl

/-- Witness for `c7_validation_aggregation`: against the `initialization`
schema, a payload with valid `tin` and `bhfId`, a missing required
`dvcSrlNo`, and one unknown field (`dvcSrlNoo`) yields the
`ValidationException` with exactly two messages, one per violation. -/
theorem c7_validation_aggregation_witness :
    validateV [("initialization", initializationSchema)]
        [("tin", .str "A123456789Z"), ("bhfId", .str "01"),
         ("dvcSrlNoo", .str "X")] "initialization"
      = .error (.vfail "Validation failed"
          ["dvcSrlNo: is required", "dvcSrlNoo: is not allowed"])
    ∧ violationCount initializationSchema
        [("tin", .str "A123456789Z"), ("bhfId", .str "01"),
         ("dvcSrlNoo", .str "X")] = 2 := by
  have h := c7_validation_aggregation [("initialization", initializationSchema)]
    "initialization" initializationSchema
    [("tin", .str "A123456789Z"), ("bhfId", .str "01"), ("dvcSrlNoo", .str "X")]
    rfl (by decide)
  exact ⟨h.1, rfl⟩
